import Mathlib

/-!
Shallow embedding of the nstream SOCKS5 proxy (Socks5 crate protocol codecs
and the CLI session driver) and verification of the frozen claims about it.

Bytes are modelled as `Nat` values (< 256 for real octets).  An async byte
stream (`tokio::io::AsyncRead`) is modelled as a list of chunks: each chunk is
the byte sequence returned by one underlying `read` call.  `read_u8`/`read_u16`
(`AsyncReadExt`) pull exact byte counts across chunk boundaries; a bare `read`
into a buffer of size `n` returns at most the front chunk, mirroring tokio's
contract that `read` may return fewer bytes than requested.
-/

set_option autoImplicit false
set_option maxRecDepth 8192

deriving instance DecidableEq for Except

namespace Nstream

/-- I/O and protocol errors raised by the codecs (`std::io::Error` values built
by `socks5::throw_io_error` plus end-of-stream from `read_exact`). -/
inductive IoErr
  | unknownAddressType
  | unknownCommand
  | readiedUnknownData
  | unsupportedSocksVersion (v : Nat)
  | unsupportedAuthVersion (v : Nat)
  | unsupportedRsvFlag (v : Nat)
  | unexpectedEof
  deriving DecidableEq, Repr

/-- A byte stream as the list of chunks successive reads will deliver. -/
abbrev Reader := List (List Nat)

/-- `AsyncReadExt::read_u8`: one byte, pulled across chunk boundaries,
`UnexpectedEof` when the stream is exhausted. -/
def readU8 : Reader → Except IoErr (Nat × Reader)
  | [] => .error .unexpectedEof
  | [] :: rest => readU8 rest
  | (b :: bs) :: rest => .ok (b, bs :: rest)

/-- `AsyncReadExt::read_u16`: two bytes, big-endian. -/
def readU16 (r : Reader) : Except IoErr (Nat × Reader) := do
  let (b0, r) ← readU8 r
  let (b1, r) ← readU8 r
  .ok (b0 * 256 + b1, r)

/-- A single `AsyncReadExt::read` into an `n`-byte buffer: yields at most the
front chunk (possibly fewer than `n` bytes), and the empty list at EOF. -/
def readUpTo (n : Nat) : Reader → (List Nat × Reader)
  | [] => ([], [])
  | chunk :: rest =>
    if chunk = [] then readUpTo n rest
    else (chunk.take n, chunk.drop n :: rest)

/-- `AsyncReadExt::read_exact` into an `n`-byte buffer: exactly `n` bytes or
`UnexpectedEof`. -/
def readExact : Nat → Reader → Except IoErr (List Nat × Reader)
  | 0, r => .ok ([], r)
  | n + 1, r => do
    let (b, r) ← readU8 r
    let (bs, r) ← readExact n r
    .ok (b :: bs, r)

/-- Is the byte a UTF-8 continuation byte (`0x80..=0xBF`)? -/
def utf8Cont (c : Nat) : Bool := 0x80 ≤ c && c ≤ 0xbf

/-- Admissible second byte of a three-byte UTF-8 sequence starting with `b`. -/
def utf8Snd3 (b c : Nat) : Bool :=
  if b = 0xe0 then 0xa0 ≤ c && c ≤ 0xbf
  else if b = 0xed then 0x80 ≤ c && c ≤ 0x9f
  else utf8Cont c

/-- Admissible second byte of a four-byte UTF-8 sequence starting with `b`. -/
def utf8Snd4 (b c : Nat) : Bool :=
  if b = 0xf0 then 0x90 ≤ c && c ≤ 0xbf
  else if b = 0xf4 then 0x80 ≤ c && c ≤ 0x8f
  else utf8Cont c

/-- UTF-8 encoding of U+FFFD, the replacement character. -/
def rfdBytes : List Nat := [0xef, 0xbf, 0xbd]

/-- Worker for `utf8LossyBytes`; the fuel argument (instantiated with the list
length, an upper bound on the number of decoding steps) keeps the recursion
structural.  Each invalid maximal subpart is replaced by one U+FFFD, exactly as
`String::from_utf8_lossy` does. -/
def utf8LossyAux : Nat → List Nat → List Nat
  | 0, _ => []
  | _ + 1, [] => []
  | fuel + 1, b :: rest =>
    if b < 0x80 then b :: utf8LossyAux fuel rest
    else if b < 0xc2 then rfdBytes ++ utf8LossyAux fuel rest
    else if b ≤ 0xdf then
      match rest with
      | [] => rfdBytes
      | c :: rest2 =>
        if utf8Cont c then b :: c :: utf8LossyAux fuel rest2
        else rfdBytes ++ utf8LossyAux fuel rest
    else if b ≤ 0xef then
      match rest with
      | [] => rfdBytes
      | c :: rest2 =>
        if utf8Snd3 b c then
          match rest2 with
          | [] => rfdBytes
          | d :: rest3 =>
            if utf8Cont d then b :: c :: d :: utf8LossyAux fuel rest3
            else rfdBytes ++ utf8LossyAux fuel rest2
        else rfdBytes ++ utf8LossyAux fuel rest
    else if b ≤ 0xf4 then
      match rest with
      | [] => rfdBytes
      | c :: rest2 =>
        if utf8Snd4 b c then
          match rest2 with
          | [] => rfdBytes
          | d :: rest3 =>
            if utf8Cont d then
              match rest3 with
              | [] => rfdBytes
              | e :: rest4 =>
                if utf8Cont e then b :: c :: d :: e :: utf8LossyAux fuel rest4
                else rfdBytes ++ utf8LossyAux fuel rest3
            else rfdBytes ++ utf8LossyAux fuel rest2
          else rfdBytes ++ utf8LossyAux fuel rest
    else rfdBytes ++ utf8LossyAux fuel rest

/-- Byte-level model of `String::from_utf8_lossy(bytes).to_string().as_bytes()`:
valid UTF-8 runs are kept verbatim, every invalid maximal subpart becomes the
three-byte encoding of U+FFFD.  Total on every byte sequence. -/
def utf8LossyBytes (l : List Nat) : List Nat := utf8LossyAux l.length l

/-- `socks5::protocol::AddressType` (atyp.rs). -/
inductive AddressType
  | IPV4
  | FQDN
  | IPV6
  deriving DecidableEq, Repr, Fintype

/-- `impl TryFrom<u8> for AddressType` (atyp.rs). -/
def AddressType.tryFromByte (value : Nat) : Except IoErr AddressType :=
  if value = 0x01 then .ok .IPV4
  else if value = 0x03 then .ok .FQDN
  else if value = 0x04 then .ok .IPV6
  else .error .unknownAddressType

/-- `impl Into<u8> for AddressType` (atyp.rs). -/
def AddressType.toByte : AddressType → Nat
  | .IPV4 => 0x01
  | .FQDN => 0x03
  | .IPV6 => 0x04

/-- `socks5::protocol::AuthMethod` (method.rs). -/
inductive AuthMethod
  | NoAuthenticationRequired
  | GSSApi
  | UsernameOrPassword
  | IANAAssigned
  | ReservedForPrivateMethods
  | NoAcceptableMethods
  deriving DecidableEq, Repr, Fintype

/-- `impl From<u8> for AuthMethod` (method.rs): total over all octets, with the
range patterns `0x03..=0x7f` and `0x80..=0xfe`. -/
def AuthMethod.fromByte (value : Nat) : AuthMethod :=
  if value = 0x00 then .NoAuthenticationRequired
  else if value = 0x01 then .GSSApi
  else if value = 0x02 then .UsernameOrPassword
  else if value ≤ 0x7f then .IANAAssigned
  else if value ≤ 0xfe then .ReservedForPrivateMethods
  else .NoAcceptableMethods

/-- `impl Into<u8> for AuthMethod` (method.rs). -/
def AuthMethod.toByte : AuthMethod → Nat
  | .NoAuthenticationRequired => 0x00
  | .GSSApi => 0x01
  | .UsernameOrPassword => 0x02
  | .IANAAssigned => 0x03
  | .ReservedForPrivateMethods => 0x80
  | .NoAcceptableMethods => 0xff

/-- `socks5::protocol::Command` (cmd.rs). -/
inductive Command
  | Connect
  | Bind
  | UdpAssociate
  deriving DecidableEq, Repr, Fintype

/-- `impl TryFrom<u8> for Command` (cmd.rs). -/
def Command.tryFromByte (value : Nat) : Except IoErr Command :=
  if value = 0x01 then .ok .Connect
  else if value = 0x02 then .ok .Bind
  else if value = 0x03 then .ok .UdpAssociate
  else .error .unknownCommand

/-- `impl Into<u8> for Command` (cmd.rs). -/
def Command.toByte : Command → Nat
  | .Connect => 0x01
  | .Bind => 0x02
  | .UdpAssociate => 0x03

/-- `socks5::protocol::ReplyField` (rep.rs). -/
inductive ReplyField
  | Succeeded
  | GeneralSocksServerFailure
  | ConnectionNotAllowedByRuleSet
  | NetworkUnreachable
  | HostUnreachable
  | ConnectionRefused
  | TTLExpired
  | CommandNotSupported
  | AddressTypeNotSupported
  | Unassigned
  deriving DecidableEq, Repr, Fintype

/-- `impl From<u8> for ReplyField` (rep.rs): total, with the range pattern
`0x09..=0xff` mapping to `Unassigned`. -/
def ReplyField.fromByte (value : Nat) : ReplyField :=
  if value = 0x00 then .Succeeded
  else if value = 0x01 then .GeneralSocksServerFailure
  else if value = 0x02 then .ConnectionNotAllowedByRuleSet
  else if value = 0x03 then .NetworkUnreachable
  else if value = 0x04 then .HostUnreachable
  else if value = 0x05 then .ConnectionRefused
  else if value = 0x06 then .TTLExpired
  else if value = 0x07 then .CommandNotSupported
  else if value = 0x08 then .AddressTypeNotSupported
  else .Unassigned

/-- `impl Into<u8> for ReplyField` (rep.rs). -/
def ReplyField.toByte : ReplyField → Nat
  | .Succeeded => 0x00
  | .GeneralSocksServerFailure => 0x01
  | .ConnectionNotAllowedByRuleSet => 0x02
  | .NetworkUnreachable => 0x03
  | .HostUnreachable => 0x04
  | .ConnectionRefused => 0x05
  | .TTLExpired => 0x06
  | .CommandNotSupported => 0x07
  | .AddressTypeNotSupported => 0x08
  | .Unassigned => 0x09

/-- The `std::io::ErrorKind` values distinguished by
`impl From<&Error> for ReplyField` (rep.rs), plus representatives of the
`ErrorKind::Other | _` catch-all arm. -/
inductive ErrorKind
  | ConnectionRefused
  | ConnectionReset
  | NotConnected
  | ConnectionAborted
  | TimedOut
  | Unsupported
  | UnexpectedEof
  | Other
  deriving DecidableEq, Repr

/-- `impl From<&Error> for ReplyField` (rep.rs lines 37-50): note the
`TimedOut` arm maps to `NetworkUnreachable`. -/
def ReplyField.fromErrorKind : ErrorKind → ReplyField
  | .ConnectionRefused => .ConnectionRefused
  | .ConnectionReset => .GeneralSocksServerFailure
  | .NotConnected => .GeneralSocksServerFailure
  | .ConnectionAborted => .ConnectionNotAllowedByRuleSet
  | .TimedOut => .NetworkUnreachable
  | _ => .Unassigned

/-- `std::net::IpAddr` restricted to what the codec touches: a v4 address as
four octets, or a v6 address as eight 16-bit big-endian groups (the arguments
of `Ipv4Addr::new` / `Ipv6Addr::new`). -/
inductive IpAddrM
  | v4 (a b c d : Nat)
  | v6 (g1 g2 g3 g4 g5 g6 g7 g8 : Nat)
  deriving DecidableEq, Repr

/-- `socks5::protocol::Address` (addr.rs): an IP socket address or a domain
name (the UTF-8 bytes of the Rust `String`) with a port. -/
inductive Address
  | IP (ip : IpAddrM) (port : Nat)
  | Domain (name : List Nat) (port : Nat)
  deriving DecidableEq, Repr

/-- `u16::to_be_bytes`. -/
def u16be (v : Nat) : List Nat := [v / 256 % 256, v % 256]

/-- `Ipv4Addr::octets` / `Ipv6Addr::octets`. -/
def IpAddrM.octets : IpAddrM → List Nat
  | .v4 a b c d => [a, b, c, d]
  | .v6 g1 g2 g3 g4 g5 g6 g7 g8 =>
    [g1 / 256 % 256, g1 % 256, g2 / 256 % 256, g2 % 256,
     g3 / 256 % 256, g3 % 256, g4 / 256 % 256, g4 % 256,
     g5 / 256 % 256, g5 % 256, g6 / 256 % 256, g6 % 256,
     g7 / 256 % 256, g7 % 256, g8 / 256 % 256, g8 % 256]

/-- `Address::as_socks_bytes` (addr.rs lines 183-198): the address body (for a
domain, one length octet `name.len() as u8` then the name bytes) followed by
the big-endian port. -/
def Address.asSocksBytes : Address → List Nat
  | .IP ip port => ip.octets ++ u16be port
  | .Domain name port => (name.length % 256) :: (name ++ u16be port)

/-- `Address::len` (addr.rs lines 207-217): 4 or 16 octets for an IP plus 2
port octets; for a domain `name.len()` plus 2 — the FQDN length octet is NOT
counted. -/
def Address.len : Address → Nat
  | .IP (.v4 _ _ _ _) _ => 4 + 2
  | .IP (.v6 _ _ _ _ _ _ _ _) _ => 16 + 2
  | .Domain name _ => name.length + 2

/-- `impl Default for Address` (addr.rs): `0.0.0.0:0`. -/
def Address.default : Address := .IP (.v4 0 0 0 0) 0

/-- `impl From<Address> for AddressType` (atyp.rs). -/
def AddressType.ofAddress : Address → AddressType
  | .IP (.v4 _ _ _ _) _ => .IPV4
  | .IP (.v6 _ _ _ _ _ _ _ _) _ => .IPV6
  | .Domain _ _ => .FQDN

/-- `Address::from_socks_bytes` (addr.rs lines 130-171).  For an FQDN the name
is read with ONE plain `read` call (`r.read(&mut buf)`, not `read_exact`), the
zero-initialised remainder of the buffer is kept, and the bytes go through
`String::from_utf8_lossy`. -/
def Address.fromSocksBytes (r : Reader) : AddressType → Except IoErr (Address × Reader)
  | .IPV4 => do
    let (a, r) ← readU8 r
    let (b, r) ← readU8 r
    let (c, r) ← readU8 r
    let (d, r) ← readU8 r
    let (port, r) ← readU16 r
    .ok (.IP (.v4 a b c d) port, r)
  | .FQDN => do
    let (dnlen, r) ← readU8 r
    let (got, r) := readUpTo dnlen r
    let buf := got ++ List.replicate (dnlen - got.length) 0
    let (port, r) ← readU16 r
    .ok (.Domain (utf8LossyBytes buf) port, r)
  | .IPV6 => do
    let (g1, r) ← readU16 r
    let (g2, r) ← readU16 r
    let (g3, r) ← readU16 r
    let (g4, r) ← readU16 r
    let (g5, r) ← readU16 r
    let (g6, r) ← readU16 r
    let (g7, r) ← readU16 r
    let (g8, r) ← readU16 r
    let (port, r) ← readU16 r
    .ok (.IP (.v6 g1 g2 g3 g4 g5 g6 g7 g8) port, r)

/-- `str::rfind(":")`: index of the last colon, if any. -/
def rfindColon : List Char → Option Nat
  | [] => none
  | c :: rest =>
    match rfindColon rest with
    | some i => some (i + 1)
    | none => if c = ':' then some 0 else none

/-- The error-as-return side of `TryFrom<String> for Address`
(`Box<dyn std::error::Error>` produced by `u16::from_str`). -/
inductive ConvErr
  | portParse
  deriving DecidableEq, Repr

/-- UTF-8 encoding of one Unicode scalar value. -/
def utf8EncodeChar (n : Nat) : List Nat :=
  if n < 0x80 then [n]
  else if n < 0x800 then [0xc0 + n / 64, 0x80 + n % 64]
  else if n < 0x10000 then [0xe0 + n / 4096, 0x80 + n / 64 % 64, 0x80 + n % 64]
  else [0xf0 + n / 0x40000, 0x80 + n / 4096 % 64, 0x80 + n / 64 % 64, 0x80 + n % 64]

/-- `String::as_bytes` on a Rust string modelled as its characters. -/
def utf8EncodeChars (s : List Char) : List Nat :=
  s.foldr (fun c acc => utf8EncodeChar c.toNat ++ acc) []

/-- `u16::from_str`: optional leading `+`, at least one decimal digit, value at
most 65535. -/
def parseU16Str (s : List Char) : Option Nat :=
  let t := match s with
    | '+' :: rest => rest
    | _ => s
  if t = [] then none
  else if t.all Char.isDigit then
    let v := t.foldl (fun acc c => acc * 10 + (c.toNat - '0'.toNat)) 0
    if v ≤ 65535 then some v else none
  else none

/-- One octet of a dotted-quad IPv4 literal as `Ipv4Addr::from_str` accepts
it: 1 to 3 decimal digits, no redundant leading zero, value at most 255. -/
def parseU8Part (s : List Char) : Option Nat :=
  if s = [] then none
  else if ¬ s.all Char.isDigit then none
  else if 1 < s.length ∧ s.headD ' ' = '0' then none
  else if 3 < s.length then none
  else
    let v := s.foldl (fun acc c => acc * 10 + (c.toNat - '0'.toNat)) 0
    if v ≤ 255 then some v else none

/-- `Ipv4Addr::from_str`: exactly four dot-separated octets. -/
def parseIpv4Str (s : List Char) : Option IpAddrM :=
  match s.splitOn '.' with
  | [p1, p2, p3, p4] => do
    let a ← parseU8Part p1
    let b ← parseU8Part p2
    let c ← parseU8Part p3
    let d ← parseU8Part p4
    some (.v4 a b c d)
  | _ => none

/-- Numeric value of one hexadecimal digit. -/
def hexVal (c : Char) : Option Nat :=
  if '0' ≤ c ∧ c ≤ '9' then some (c.toNat - '0'.toNat)
  else if 'a' ≤ c ∧ c ≤ 'f' then some (c.toNat - 'a'.toNat + 10)
  else if 'A' ≤ c ∧ c ≤ 'F' then some (c.toNat - 'A'.toNat + 10)
  else none

/-- One 16-bit group of an IPv6 literal: 1 to 4 hexadecimal digits. -/
def parseHexPart (s : List Char) : Option Nat :=
  if s = [] ∨ 4 < s.length then none
  else
    s.foldl (fun acc c => do
      let a ← acc
      let d ← hexVal c
      some (a * 16 + d)) (some 0)

/-- Split a character list at the first occurrence of `::`, if any. -/
def splitDoubleColon : List Char → Option (List Char × List Char)
  | [] => none
  | ':' :: ':' :: rest => some ([], rest)
  | c :: rest => (splitDoubleColon rest).map (fun p => (c :: p.1, p.2))

/-- Parse colon-separated IPv6 groups, the last of which may be an embedded
dotted-quad IPv4 literal contributing two groups. -/
def parseGroupsTail (parts : List (List Char)) : Option (List Nat) :=
  match parts with
  | [] => some []
  | [p] =>
    match parseHexPart p with
    | some g => some [g]
    | none =>
      match parseIpv4Str p with
      | some (.v4 a b c d) => some [a * 256 + b, c * 256 + d]
      | _ => none
  | p :: rest => do
    let g ← parseHexPart p
    let gs ← parseGroupsTail rest
    some (g :: gs)

/-- Parse colon-separated IPv6 groups with no embedded IPv4 literal. -/
def parseGroupsHex (parts : List (List Char)) : Option (List Nat) :=
  match parts with
  | [] => some []
  | p :: rest => do
    let g ← parseHexPart p
    let gs ← parseGroupsHex rest
    some (g :: gs)

/-- Assemble eight 16-bit groups into an `IpAddrM.v6`. -/
def groupsToV6 (gs : List Nat) : Option IpAddrM :=
  match gs with
  | [g1, g2, g3, g4, g5, g6, g7, g8] => some (.v6 g1 g2 g3 g4 g5 g6 g7 g8)
  | _ => none

/-- `Ipv6Addr::from_str`: eight hex groups, or a single `::` standing for the
missing zero groups, with an optional embedded IPv4 literal at the end. -/
def parseIpv6Str (s : List Char) : Option IpAddrM :=
  match splitDoubleColon s with
  | none => do
    let gs ← parseGroupsTail (s.splitOn ':')
    groupsToV6 gs
  | some (l, rr) => do
    let lgs ← parseGroupsHex (if l = [] then [] else l.splitOn ':')
    let rgs ← parseGroupsTail (if rr = [] then [] else rr.splitOn ':')
    if lgs.length + rgs.length ≤ 7 then
      groupsToV6 (lgs ++ List.replicate (8 - lgs.length - rgs.length) 0 ++ rgs)
    else none

/-- The fallible tail of `TryFrom<String> for Address` (addr.rs lines 56-72)
once `rfind` has succeeded: strip brackets from the host part, parse the port
with `u16::from_str` (`?`-propagated), then try IPv4, then IPv6, else Domain. -/
def addressConvert (before portStr : List Char) : Except ConvErr Address :=
  let ipAddrOrDomain := (before.filter (fun c => c ≠ '[')).filter (fun c => c ≠ ']')
  match parseU16Str portStr with
  | none => .error .portParse
  | some port =>
    match parseIpv4Str ipAddrOrDomain with
    | some ip => .ok (.IP ip port)
    | none =>
      match parseIpv6Str ipAddrOrDomain with
      | some ip => .ok (.IP ip port)
      | none => .ok (.Domain (utf8EncodeChars ipAddrOrDomain) port)

/-- `impl TryFrom<String> for Address` (addr.rs lines 56-72).  The source runs
`addr.rfind(":").unwrap()` first: `none` models the panic of `unwrap` on an
input with no colon, `some` the normal error-as-return continuation on
`split_at`-produced halves. -/
def addressTryFromString (s : List Char) : Option (Except ConvErr Address) :=
  match rfindColon s with
  | none => none
  | some i => some (addressConvert (s.take i) (s.drop (i + 1)))

/-- `socks5::check_socks_ver` (lib.rs): one octet that must equal 0x05. -/
def checkSocksVer (r : Reader) : Except IoErr Reader := do
  let (ver, r) ← readU8 r
  if ver ≠ 5 then .error (.unsupportedSocksVersion ver) else .ok r

/-- `socks5::check_auth_ver` (lib.rs): one octet that must equal 0x01. -/
def checkAuthVer (r : Reader) : Except IoErr Reader := do
  let (ver, r) ← readU8 r
  if ver ≠ 1 then .error (.unsupportedAuthVersion ver) else .ok r

/-- `socks5::check_rsv` (lib.rs): one octet that must equal 0x00. -/
def checkRsv (r : Reader) : Except IoErr Reader := do
  let (rsv, r) ← readU8 r
  if rsv ≠ 0 then .error (.unsupportedRsvFlag rsv) else .ok r

/-- `socks5::protocol::HandshakeRequest` (handreq.rs). -/
structure HandshakeRequest where
  methods : List AuthMethod
  deriving DecidableEq, Repr

/-- `HandshakeRequest::as_bytes` (handreq.rs lines 37-47): VER, then
`methods.len() as u8`, then one octet per method. -/
def HandshakeRequest.asBytes (h : HandshakeRequest) : List Nat :=
  5 :: (h.methods.length % 256) :: h.methods.map AuthMethod.toByte

/-- The `for _ in 0..nmethods` loop of `HandshakeRequest::from`. -/
def readMethods : Nat → Reader → Except IoErr (List AuthMethod × Reader)
  | 0, r => .ok ([], r)
  | n + 1, r => do
    let (b, r) ← readU8 r
    let (ms, r) ← readMethods n r
    .ok (AuthMethod.fromByte b :: ms, r)

/-- `HandshakeRequest::from` (handreq.rs lines 49-66). -/
def HandshakeRequest.fromReader (r : Reader) : Except IoErr (HandshakeRequest × Reader) := do
  let r ← checkSocksVer r
  let (nmethods, r) ← readU8 r
  let (methods, r) ← readMethods nmethods r
  .ok (⟨methods⟩, r)

/-- `socks5::protocol::HandshakeResponse` (handresp.rs). -/
structure HandshakeResponse where
  method : AuthMethod
  deriving DecidableEq, Repr

/-- `HandshakeResponse::as_bytes` (handresp.rs lines 36-38). -/
def HandshakeResponse.asBytes (h : HandshakeResponse) : List Nat :=
  [5, h.method.toByte]

/-- The version/method negotiation step of the CLI session task
(CLI/src/main.rs lines 170-180): read the `HandshakeRequest`, then emit
`HandshakeResponse::new(AuthMethod::NoAuthenticationRequired)` — the offered
methods and the configured credentials are not consulted. -/
def sessionHandshake (r : Reader) : Except IoErr (HandshakeRequest × List Nat) := do
  let (hreq, _) ← HandshakeRequest.fromReader r
  .ok (hreq, (HandshakeResponse.mk .NoAuthenticationRequired).asBytes)

/-- `socks5::protocol::UsernamePasswordAuth` (upauth.rs), fields as the UTF-8
bytes of the Rust strings. -/
structure UsernamePasswordAuth where
  usr : List Nat
  pwd : List Nat
  deriving DecidableEq, Repr

/-- `UsernamePasswordAuth::from` (upauth.rs lines 57-78): ULEN octet,
`read_exact` UNAME, PLEN octet, `read_exact` PASSWD, both through
`String::from_utf8_lossy`. -/
def UsernamePasswordAuth.fromReader (r : Reader) :
    Except IoErr (UsernamePasswordAuth × Reader) := do
  let r ← checkAuthVer r
  let (usrlen, r) ← readU8 r
  let (usrbuf, r) ← readExact usrlen r
  let (pwdlen, r) ← readU8 r
  let (pwdbuf, r) ← readExact pwdlen r
  .ok (⟨utf8LossyBytes usrbuf, utf8LossyBytes pwdbuf⟩, r)

/-- `socks5::protocol::ReplyResponse` (rep_resp.rs). -/
structure ReplyResponse where
  rep : ReplyField
  addr : Address
  deriving DecidableEq, Repr

/-- `ReplyResponse::as_bytes` (rep_resp.rs lines 28-37): VER, REP, RSV, the
ATYP derived from the carried address, then the address bytes. -/
def ReplyResponse.asBytes (resp : ReplyResponse) : List Nat :=
  [5, resp.rep.toByte, 0, (AddressType.ofAddress resp.addr).toByte] ++ resp.addr.asSocksBytes

/-- `impl From<&Result<TcpStream, Error>> for ReplyField` (rep.rs lines
61-68), as used on the `TcpStream::connect` result in `impl_connect`. -/
def connectReply (ret : Except ErrorKind Unit) : ReplyField :=
  match ret with
  | .ok _ => .Succeeded
  | .error e => ReplyField.fromErrorKind e

/-- `impl From<&Result<(), Error>> for ReplyField` (rep.rs lines 52-59), as
used on the `UdpSocket::connect` result in `impl_udp_associate`. -/
def udpAssociateReply (ret : Except ErrorKind Unit) : ReplyField :=
  match ret with
  | .ok _ => .Succeeded
  | .error e => ReplyField.fromErrorKind e

/-- The reply bytes `impl_connect` (CLI/src/main.rs lines 43-59) writes to the
client: `ReplyResponse::new(rep, Address::default())`. -/
def implConnectReplyBytes (ret : Except ErrorKind Unit) : List Nat :=
  (ReplyResponse.mk (connectReply ret) Address.default).asBytes

/-- `socks5::protocol::UdpPacket` (udp_pack.rs). -/
structure UdpPacket where
  frag : Nat
  addr : Address
  data : List Nat
  deriving DecidableEq, Repr

/-- `UdpPacket::as_socks_bytes` (udp_pack.rs lines 85-96): RSV RSV, FRAG,
ATYP, the address bytes, then the payload. -/
def UdpPacket.asSocksBytes (p : UdpPacket) : List Nat :=
  0 :: 0 :: p.frag :: (AddressType.ofAddress p.addr).toByte ::
    (p.addr.asSocksBytes ++ p.data)

/-- One incoming datagram of the client-facing UDP socket: the received bytes
and an opaque identifier for the source socket address. -/
structure Datagram where
  bytes : List Nat
  fromAddr : Nat
  deriving DecidableEq, Repr

/-- What one iteration of the `loop` in `UdpPacket::from` (udp_pack.rs lines
44-68) does with a received datagram. -/
inductive StepResult
  | packet (p : UdpPacket)
  | dropAndContinue
  | fail (e : IoErr)
  | sliceOob
  deriving DecidableEq, Repr

/-- The body of the `loop` in `UdpPacket::from` on one datagram: reject
datagrams of at most 4 octets, decode ATYP (`?`-propagated), decode the
address; on address-decode failure loop to the next `recv_from`; otherwise the
payload is `udp_data[(4 + to_addr.len())..]` — `sliceOob` marks the Rust
slice-index panic when `4 + to_addr.len()` exceeds the datagram length. -/
def udpDecodeStep (bytes : List Nat) : StepResult :=
  let udpData := bytes.take 65535
  if udpData.length ≤ 4 then .fail .readiedUnknownData
  else
    match AddressType.tryFromByte (udpData.getD 3 0) with
    | .error e => .fail e
    | .ok atyp =>
      match Address.fromSocksBytes [udpData.drop 4] atyp with
      | .error _ => .dropAndContinue
      | .ok (toAddr, _) =>
        if 4 + toAddr.len ≤ udpData.length then
          .packet ⟨udpData.getD 2 0, toAddr, udpData.drop (4 + toAddr.len)⟩
        else .sliceOob

/-- Result of `UdpPacket::from` over a finite arrival sequence. -/
inductive RecvOutcome
  | recv (p : UdpPacket) (fromAddr : Nat) (rest : List Datagram)
  | err (e : IoErr)
  | panicked
  | blocked
  deriving DecidableEq, Repr

/-- `UdpPacket::from` (udp_pack.rs lines 44-68) run over the sequence of
datagrams the socket will deliver; `blocked` models an exhausted sequence
(the next `recv_from` would suspend forever). -/
def UdpPacket.fromSock : List Datagram → RecvOutcome
  | [] => .blocked
  | d :: rest =>
    match udpDecodeStep d.bytes with
    | .packet p => .recv p d.fromAddr rest
    | .dropAndContinue => UdpPacket.fromSock rest
    | .fail e => .err e
    | .sliceOob => .panicked

/-- One event of the upstream (client-to-origin) leg of `impl_udp_associate`
(CLI/src/main.rs lines 77-121): a `UdpPacket::from` error breaks the relay
loop (`break _ret`); a decoded packet forwards its payload. -/
inductive RelayEvent
  | forwarded (data : List Nat) (newClientAddr : Nat) (rest : List Datagram)
  | terminated (e : IoErr)
  | panicked
  | idle
  deriving DecidableEq, Repr

/-- The upstream leg of the UDP ASSOCIATE relay. -/
def upstreamLeg (ds : List Datagram) : RelayEvent :=
  match UdpPacket.fromSock ds with
  | .recv p fromAddr rest => .forwarded p.data fromAddr rest
  | .err e => .terminated e
  | .panicked => .panicked
  | .blocked => .idle

/-- `Command` encode-after-decode, the identity on the octets where the
decoder succeeds and (vacuously) on the octets where it fails. -/
def cmdEncDec (x : Nat) : Nat :=
  match Command.tryFromByte x with
  | .ok c => c.toByte
  | .error _ => x

/-- `AddressType` encode-after-decode, the identity on the octets where the
decoder succeeds and (vacuously) on the octets where it fails. -/
def atypEncDec (x : Nat) : Nat :=
  match AddressType.tryFromByte x with
  | .ok a => a.toByte
  | .error _ => x

/-- The serialized byte-length the specification asserts for each address
shape: 6 for IPv4, 18 for IPv6, `3 + len(name)` for a domain. -/
def serializedLenSpec : Address → Nat
  | .IP (.v4 _ _ _ _) _ => 6
  | .IP (.v6 _ _ _ _ _ _ _ _) _ => 18
  | .Domain name _ => 3 + name.length

theorem readExact_append (u c : List Nat) (rs : Reader) :
    readExact u.length ((u ++ c) :: rs) = .ok (u, c :: rs) := by
  induction u with
  | nil => rfl
  | cons x xs ih =>
    simp only [List.length_cons, List.cons_append, readExact, readU8, bind, Except.bind,
      List.append_eq, ih]

theorem rfindColon_isSome (s : List Char) : (rfindColon s).isSome ↔ ':' ∈ s := by
  induction s with
  | nil => simp [rfindColon]
  | cons c rest ih =>
    simp only [rfindColon, List.mem_cons]
    cases h : rfindColon rest with
    | some i => simp [h] at ih ⊢; exact Or.inr ih
    | none =>
      simp [h] at ih ⊢
      constructor
      · intro hc; exact Or.inl hc.symm
      · intro hor
        rcases hor with hc | hmem
        · exact hc.symm
        · exact absurd hmem ih

/-- C1: the `decode(serialize(m)) == m` law fails for `UdpPacket` with an
FQDN address.  For the packet `UdpPacket(frag = 0, addr = Domain("a", 80),
data = [0xAB])`, whose serialization is `[0,0,0,3,1,97,0,80,0xAB]`, the
decoder locates the payload at offset `4 + Address::len() = 7` — but
`Address::len()` omits the FQDN length octet, so the true payload offset is 8
and the decoded payload gains the low port octet: the decoder yields the
packet with `data = [0x50, 0xAB]`, not the original. -/
theorem c1_udp_fqdn_payload_shifted :
    UdpPacket.fromSock [⟨(UdpPacket.mk 0 (.Domain [97] 80) [171]).asSocksBytes, 7⟩] =
      .recv (UdpPacket.mk 0 (.Domain [97] 80) [80, 171]) 7 [] ∧
    UdpPacket.mk 0 (.Domain [97] 80) [80, 171] ≠ UdpPacket.mk 0 (.Domain [97] 80) [171] := by
  decide

/-- C2 counterexample: a client offering exactly `UserPass` (with credentials
always configured in the CLI) must, per the claim, be answered with method
`UserPass` (`[0x05, 0x02]`); the session handshake instead emits
`[0x05, 0x00]` (`NoAuth`). -/
theorem c2_handshake_ignores_offer :
    sessionHandshake [[5, 1, 2]] = .ok (⟨[.UsernameOrPassword]⟩, [5, 0]) ∧
    ([5, 0] : List Nat) ≠ [5, 2] := by
  decide

/-- C2 amended: whenever the session handshake succeeds it emits the
`HandshakeResponse` bytes for `NoAuth`, `[0x05, 0x00]`, regardless of the
offered methods; `UserPass` and `NoAcceptable` are never selected. -/
theorem c2_amended_always_noauth (r : Reader) (hreq : HandshakeRequest) (resp : List Nat)
    (h : sessionHandshake r = .ok (hreq, resp)) :
    resp = (HandshakeResponse.mk .NoAuthenticationRequired).asBytes := by
  unfold sessionHandshake at h
  cases hfr : HandshakeRequest.fromReader r with
  | error e => rw [hfr] at h; exact absurd h (by simp [bind, Except.bind])
  | ok pr =>
    rw [hfr] at h
    simp only [bind, Except.bind, Except.ok.injEq, Prod.mk.injEq] at h
    exact h.2.symm

theorem c2_amended_always_noauth_witness :
    sessionHandshake [[5, 1, 2]] = .ok (⟨[.UsernameOrPassword]⟩, [5, 0]) ∧
    ([5, 0] : List Nat) = (HandshakeResponse.mk .NoAuthenticationRequired).asBytes :=
  ⟨by decide, c2_amended_always_noauth [[5, 1, 2]] ⟨[.UsernameOrPassword]⟩ [5, 0] (by decide)⟩

/-- C3 counterexample: `encode(decode(x)) == x` fails on the total decoders:
`AuthMethod` decodes 0x04 to `IANAAssigned` which encodes to 0x03, and
`ReplyField` decodes 0x0A to `Unassigned` which encodes to 0x09. -/
theorem c3_encode_decode_not_id :
    AuthMethod.toByte (AuthMethod.fromByte 4) = 3 ∧ (3 : Nat) ≠ 4 ∧
    ReplyField.toByte (ReplyField.fromByte 10) = 9 ∧ (9 : Nat) ≠ 10 := by
  decide

/-- C3 amended: `decode(encode(v)) == v` holds for every variant of all four
enumerations, and `encode(decode(x)) == x` holds on every octet where decoding
succeeds for the partial decoders `Command` and `AddressType` — but on the
total decoders it holds exactly on the octets carried by a non-range variant:
`{0x00, 0x01, 0x02, 0x03, 0x80, 0xFF}` for `AuthMethod` and `0x00..=0x09` for
`ReplyField`. -/
theorem c3_amended_roundtrip :
    (∀ m : AuthMethod, AuthMethod.fromByte m.toByte = m) ∧
    (∀ f : ReplyField, ReplyField.fromByte f.toByte = f) ∧
    (∀ c : Command, Command.tryFromByte c.toByte = .ok c) ∧
    (∀ a : AddressType, AddressType.tryFromByte a.toByte = .ok a) ∧
    (∀ x : Fin 256, cmdEncDec x.val = x.val) ∧
    (∀ x : Fin 256, atypEncDec x.val = x.val) ∧
    (∀ x : Fin 256,
      (AuthMethod.toByte (AuthMethod.fromByte x.val) = x.val ↔
        x.val ∈ ([0x00, 0x01, 0x02, 0x03, 0x80, 0xff] : List Nat))) ∧
    (∀ x : Fin 256, (ReplyField.toByte (ReplyField.fromByte x.val) = x.val ↔ x.val ≤ 9)) := by
  refine ⟨?_, ?_, ?_, ?_, ?_, ?_, ?_, ?_⟩ <;> decide

/-- C4 counterexample: the single error mapping `impl From<&Error> for
ReplyField` sends `TimedOut` to `NetworkUnreachable`, so a timeout during
CONNECT setup is NOT reported as `TTLExpired`. -/
theorem c4_timedout_connect_not_ttlexpired :
    connectReply (.error .TimedOut) = .NetworkUnreachable ∧
    connectReply (.error .TimedOut) ≠ .TTLExpired := by
  decide

/-- C4 amended: an OS error of kind `TimedOut` maps to `NetworkUnreachable`
both during CONNECT setup and during UDP ASSOCIATE setup, and the reply
`impl_connect` emits for it is `05 03 00 01 00 00 00 00 00 00`. -/
theorem c4_amended_timedout_netunreach :
    connectReply (.error .TimedOut) = .NetworkUnreachable ∧
    udpAssociateReply (.error .TimedOut) = .NetworkUnreachable ∧
    implConnectReplyBytes (.error .TimedOut) = [5, 3, 0, 1, 0, 0, 0, 0, 0, 0] := by
  decide

/-- C5: the FQDN decoder does not detect short name reads.  On a stream that
delivers `[3, 97]` in a first read and `[98, 99, 0, 80]` in a second — so the
single `read` for the 3-octet name yields only one octet — decoding returns
`Ok(Domain("a\u0000\u0000", 25187))` built from the zero-padded buffer and two
misaligned port octets, instead of the `ShortRead` error the claim requires
(no code path constructs such an error). -/
theorem c5_fqdn_short_read_not_error :
    Address.fromSocksBytes [[3, 97], [98, 99, 0, 80]] .FQDN =
      .ok (.Domain [97, 0, 0] 25187, [[0, 80]]) := by
  decide

/-- C6 counterexample: a datagram with the unknown ATYP octet 0x05 makes
`UdpPacket::from` return an error (the `?` on `udp_data[3].try_into()`), and
in `impl_udp_associate` that error breaks the relay loop — the relay
terminates even though a decodable datagram is queued right behind it. -/
theorem c6_unknown_atyp_terminates_relay :
    UdpPacket.fromSock [⟨[0, 0, 0, 5, 99], 1⟩, ⟨[0, 0, 0, 1, 127, 0, 0, 1, 0, 80, 42], 2⟩] =
      .err .unknownAddressType ∧
    upstreamLeg [⟨[0, 0, 0, 5, 99], 1⟩, ⟨[0, 0, 0, 1, 127, 0, 0, 1, 0, 80, 42], 2⟩] =
      .terminated .unknownAddressType ∧
    UdpPacket.fromSock [⟨[0, 0, 0, 1, 127, 0, 0, 1, 0, 80, 42], 2⟩] =
      .recv (UdpPacket.mk 0 (.IP (.v4 127 0 0 1) 80) [42]) 2 [] := by
  decide

/-- C6 amended: only a failure of the Address decode drops the datagram and
continues receiving; a datagram of at most 4 octets, or one whose ATYP octet
is unknown, makes `UdpPacket::from` return an error, which terminates the
relay. -/
theorem c6_amended_only_addr_failures_dropped :
    (∀ (d : Datagram) (rest : List Datagram),
      udpDecodeStep d.bytes = .dropAndContinue →
      UdpPacket.fromSock (d :: rest) = UdpPacket.fromSock rest) ∧
    (∀ (d : Datagram) (rest : List Datagram) (e : IoErr),
      udpDecodeStep d.bytes = .fail e → UdpPacket.fromSock (d :: rest) = .err e) ∧
    (∀ (bytes : List Nat) (atyp : AddressType) (e : IoErr),
      4 < (bytes.take 65535).length →
      AddressType.tryFromByte ((bytes.take 65535).getD 3 0) = .ok atyp →
      Address.fromSocksBytes [(bytes.take 65535).drop 4] atyp = .error e →
      udpDecodeStep bytes = .dropAndContinue) ∧
    (∀ bytes : List Nat, (bytes.take 65535).length ≤ 4 →
      udpDecodeStep bytes = .fail .readiedUnknownData) ∧
    (∀ (bytes : List Nat) (e : IoErr),
      4 < (bytes.take 65535).length →
      AddressType.tryFromByte ((bytes.take 65535).getD 3 0) = .error e →
      udpDecodeStep bytes = .fail e) := by
  refine ⟨?_, ?_, ?_, ?_, ?_⟩
  · intro d rest h
    simp only [UdpPacket.fromSock]
    rw [h]
  · intro d rest e h
    simp only [UdpPacket.fromSock]
    rw [h]
  · intro bytes atyp e h1 h2 h3
    simp only [udpDecodeStep, h2, h3]
    rw [if_neg (by omega)]
  · intro bytes h
    simp only [udpDecodeStep]
    rw [if_pos h]
  · intro bytes e h1 h2
    simp only [udpDecodeStep, h2]
    rw [if_neg (by omega)]

theorem c6_amended_only_addr_failures_dropped_witness :
    udpDecodeStep [0, 0, 0, 1, 9] = .dropAndContinue ∧
    udpDecodeStep [0, 0, 0, 5, 99] = .fail .unknownAddressType ∧
    UdpPacket.fromSock [⟨[0, 0, 0, 1, 9], 3⟩, ⟨[0, 0, 0, 1, 9], 4⟩] =
      UdpPacket.fromSock [⟨[0, 0, 0, 1, 9], 4⟩] ∧
    UdpPacket.fromSock [⟨[0, 0, 0, 5, 99], 1⟩] = .err .unknownAddressType :=
  ⟨by decide, by decide,
    c6_amended_only_addr_failures_dropped.1 ⟨[0, 0, 0, 1, 9], 3⟩ [⟨[0, 0, 0, 1, 9], 4⟩]
      (by decide),
    c6_amended_only_addr_failures_dropped.2.1 ⟨[0, 0, 0, 5, 99], 1⟩ [] .unknownAddressType
      (by decide)⟩

/-- C7: for every `Address`, the length of `as_socks_bytes` is 6 for IPv4, 18
for IPv6, and `3 + len(name)` for a domain (one length octet, the name, two
port octets). -/
theorem c7_serialized_length (a : Address) :
    a.asSocksBytes.length = serializedLenSpec a := by
  cases a with
  | IP ip port =>
    cases ip <;> simp [Address.asSocksBytes, IpAddrM.octets, u16be, serializedLenSpec]
  | Domain name port =>
    simp [Address.asSocksBytes, u16be, serializedLenSpec]
    omega

theorem c7_serialized_length_witness :
    (Address.Domain [103, 105, 116] 443).asSocksBytes.length =
      serializedLenSpec (Address.Domain [103, 105, 116] 443) :=
  c7_serialized_length (Address.Domain [103, 105, 116] 443)

/-- C8: the FQDN hostname decoder and the username/password subnegotiation
decoder accept EVERY byte sequence in the variable-length fields — the bytes
go through `String::from_utf8_lossy`, which replaces invalid sequences with
U+FFFD, so no UTF-8 validation error path exists. -/
theorem c8_lossy_never_fails (nb u p : List Nat) (hi lo : Nat)
    (hnb : nb.length ≤ 255) (hu : u.length ≤ 255) (hp : p.length ≤ 255) :
    Address.fromSocksBytes [nb.length :: (nb ++ [hi, lo])] .FQDN =
      .ok (.Domain (utf8LossyBytes nb) (hi * 256 + lo), [([] : List Nat)]) ∧
    UsernamePasswordAuth.fromReader [1 :: u.length :: (u ++ p.length :: p)] =
      .ok (⟨utf8LossyBytes u, utf8LossyBytes p⟩, [([] : List Nat)]) := by
  constructor
  · simp only [Address.fromSocksBytes, readU8, readU16, readUpTo, bind, Except.bind]
    rw [if_neg (by simp)]
    simp [List.take_left, List.drop_left, readU8, bind, Except.bind]
  · have h1 : readExact u.length ((u ++ (p.length :: p)) :: ([] : Reader)) =
        .ok (u, (p.length :: p) :: []) := readExact_append u (p.length :: p) []
    have h2 : readExact p.length ((p ++ []) :: ([] : Reader)) = .ok (p, [] :: []) :=
      readExact_append p [] []
    rw [List.append_nil] at h2
    simp [UsernamePasswordAuth.fromReader, checkAuthVer, readU8, bind, Except.bind, h1, h2]

theorem c8_lossy_never_fails_witness :
    ([255, 97] : List Nat).length ≤ 255 ∧ ([128] : List Nat).length ≤ 255 ∧
    ([240, 65] : List Nat).length ≤ 255 ∧
    (Address.fromSocksBytes [([255, 97] : List Nat).length :: ([255, 97] ++ [0, 80])] .FQDN =
        .ok (.Domain (utf8LossyBytes [255, 97]) (0 * 256 + 80), [([] : List Nat)]) ∧
      UsernamePasswordAuth.fromReader
          [1 :: ([128] : List Nat).length :: ([128] ++ ([240, 65] : List Nat).length :: [240, 65])] =
        .ok (⟨utf8LossyBytes [128], utf8LossyBytes [240, 65]⟩, [([] : List Nat)])) :=
  ⟨by decide, by decide, by decide,
    c8_lossy_never_fails [255, 97] [128] [240, 65] 0 80 (by decide) (by decide) (by decide)⟩

/-- C9: `TryFrom<String> for Address` is partial — on "localhost" (no colon)
the `rfind(":").unwrap()` panics, modelled as `none` — and it returns a value
(`Ok` or `Err`, never a panic) exactly when the input contains a colon. -/
theorem c9_tryfrom_string_needs_colon :
    addressTryFromString ("localhost".toList) = none ∧
    ∀ s : List Char, (addressTryFromString s).isSome ↔ ':' ∈ s := by
  constructor
  · rfl
  · intro s
    rw [← rfindColon_isSome]
    unfold addressTryFromString
    cases h : rfindColon s <;> simp [h]

theorem c9_tryfrom_string_needs_colon_witness :
    (addressTryFromString ("github.com:443".toList)).isSome :=
  (c9_tryfrom_string_needs_colon.2 ("github.com:443".toList)).mpr (by decide)

/-- C10: the NMETHODS octet and the FQDN length octet are emitted as
`len as u8`, i.e. reduced modulo 256, with no range check: for more than 255
methods (resp. a name longer than 255 octets) the emitted octet is
`len mod 256` while every method (resp. name) octet is still emitted. -/
theorem c10_length_octet_mod_256 (methods : List AuthMethod) (name : List Nat) (port : Nat)
    (hm : 255 < methods.length) (hn : 255 < name.length) :
    (HandshakeRequest.asBytes ⟨methods⟩)[1]? = some (methods.length % 256) ∧
    (HandshakeRequest.asBytes ⟨methods⟩).length = 2 + methods.length ∧
    ((Address.Domain name port).asSocksBytes)[0]? = some (name.length % 256) ∧
    ((Address.Domain name port).asSocksBytes).length = 3 + name.length := by
  refine ⟨?_, ?_, ?_, ?_⟩ <;>
    simp [HandshakeRequest.asBytes, Address.asSocksBytes, u16be] <;> omega

theorem c10_length_octet_mod_256_witness :
    255 < (List.replicate 256 AuthMethod.NoAuthenticationRequired).length ∧
    255 < (List.replicate 256 (97 : Nat)).length ∧
    ((HandshakeRequest.asBytes ⟨List.replicate 256 AuthMethod.NoAuthenticationRequired⟩)[1]? =
        some ((List.replicate 256 AuthMethod.NoAuthenticationRequired).length % 256) ∧
      (HandshakeRequest.asBytes ⟨List.replicate 256 AuthMethod.NoAuthenticationRequired⟩).length =
        2 + (List.replicate 256 AuthMethod.NoAuthenticationRequired).length ∧
      ((Address.Domain (List.replicate 256 97) 80).asSocksBytes)[0]? =
        some ((List.replicate 256 (97 : Nat)).length % 256) ∧
      ((Address.Domain (List.replicate 256 97) 80).asSocksBytes).length =
        3 + (List.replicate 256 (97 : Nat)).length) :=
  ⟨by decide, by decide,
    c10_length_octet_mod_256 (List.replicate 256 .NoAuthenticationRequired)
      (List.replicate 256 97) 80 (by decide) (by decide)⟩

end Nstream
